import Mathlib

/-!
Shallow embedding of the credential & service manager layer of the repository:
`config.py` (`get_google_scopes`) and `google_auth.py` (`GoogleServiceManager.
_get_credentials`, `GoogleServiceManager.get_service`, `clear_cache`,
`validate_credentials`).

External effects (file system, network, the OAuth library) are modelled by an
`Env` record fixing the outcome of each external call, an explicit `AuthState`
(service cache, durable token file, a counter allocating fresh handle ids),
and an event trace recording every storage/network operation the code performs.
-/

/-- A persisted user-delegated token, as the google-auth `Credentials` object
exposes it to this code: the three attributes `_get_credentials` reads
(`creds.valid`, `creds.expired`, `creds.refresh_token`). -/
structure Token where
  valid : Bool
  expired : Bool
  hasRefresh : Bool
deriving DecidableEq, Repr

/-- Credential material returned by `_get_credentials`: either a service-account
credential minted from the key file for the requested scopes, or a
user-delegated token. -/
inductive Creds where
  | serviceAccount (scopes : List String) : Creds
  | user (t : Token) : Creds
deriving DecidableEq, Repr

/-- A built API service handle (result of `build(api_name, api_version,
credentials=creds)`). The `id` field models Python object identity: each call
to `build` yields a fresh object, numbered by the state's allocation counter. -/
structure Service where
  api : String
  version : String
  creds : Creds
  id : Nat
deriving DecidableEq, Repr

/-- The cache key `f"{api_name}_{api_version}_{hash(tuple(scopes))}"` computed
at google_auth.py:88. Python's `hash` on a tuple of strings is a deterministic
function of the sequence (order-sensitive); we model `hash(tuple(scopes))` by
the scope sequence itself. -/
structure ServiceKey where
  apiName : String
  apiVersion : String
  scopesTuple : List String
deriving DecidableEq, Repr

def serviceKey (api ver : String) (scopes : List String) : ServiceKey :=
  ⟨api, ver, scopes⟩

/-- The one error type raised by this layer: `GoogleAuthError`. -/
inductive AuthError where
  | googleAuthError (msg : String) : AuthError
deriving DecidableEq, Repr

/-- Observable storage / network operations performed by the code. -/
inductive Event where
  | saLoad : Event
  | tokenLoaded : Event
  | tokenLoadFailed : Event
  | refresh : Event
  | runFlow : Event
  | tokenWrite (t : Token) : Event
  | build (api : String) : Event
  | getProfile : Event
deriving DecidableEq, Repr

/-- Network I/O events: token refresh, the interactive consent flow,
`build` (discovery fetch), and the `getProfile` identity check. -/
def Event.isNetwork : Event → Bool
  | .refresh => true
  | .runFlow => true
  | .build _ => true
  | .getProfile => true
  | _ => false

/-- Fixed outcomes of the external world for one run: configuration flags,
file existence, and whether each external call would succeed. -/
structure Env where
  saPathConfigured : Bool
  saFileExists : Bool
  saLoadOk : Bool
  refreshOk : Bool
  credFileExists : Bool
  flowResult : Option Token
  buildOk : Bool
  profileOk : Bool
deriving DecidableEq, Repr

/-- Mutable state: the service cache (`self._services`, a dict modelled as an
association list with newest binding first), the durable token file, and the
handle-id allocation counter. The token file is `none` when missing,
`some none` when present but unparseable, `some (some t)` when it holds a
parseable token `t`. -/
structure AuthState where
  cache : List (ServiceKey × Service)
  tokenFile : Option (Option Token)
  nextId : Nat
deriving DecidableEq, Repr

def cacheLookup (c : List (ServiceKey × Service)) (k : ServiceKey) : Option Service :=
  match c with
  | [] => none
  | (k', s) :: rest => if k' = k then some s else cacheLookup rest k

/-- `config.get_google_scopes`: static mapping from service name to default
scopes; returns the empty list for a service outside the mapping
(`scope_mapping.get(service, [])`). -/
def get_google_scopes (service : String) : List String :=
  if service = "gmail" then
    ["https://www.googleapis.com/auth/gmail.readonly",
     "https://www.googleapis.com/auth/gmail.modify",
     "https://www.googleapis.com/auth/gmail.send"]
  else if service = "calendar" then
    ["https://www.googleapis.com/auth/calendar"]
  else if service = "drive" then
    ["https://www.googleapis.com/auth/drive.readonly",
     "https://www.googleapis.com/auth/drive.file"]
  else []

instance {ε α : Type} [DecidableEq ε] [DecidableEq α] : DecidableEq (Except ε α) := fun a b =>
  match a, b with
  | .error e, .error f =>
      if h : e = f then isTrue (by subst h; rfl) else isFalse (fun hc => by cases hc; exact h rfl)
  | .error _, .ok _ => isFalse (fun hc => by cases hc)
  | .ok _, .error _ => isFalse (fun hc => by cases hc)
  | .ok x, .ok y =>
      if h : x = y then isTrue (by subst h; rfl) else isFalse (fun hc => by cases hc; exact h rfl)

/-- Outcome of `_get_credentials`: a result, the token file after the call,
and the trace of storage/network events. -/
structure CredsResult where
  result : Except AuthError Creds
  tokenFile : Option (Option Token)
  events : List Event
deriving DecidableEq, Repr

/-- The `creds` variable after the token-load step (google_auth.py:43-51):
a parse failure is caught and leaves `creds` at `None`. -/
def loadToken (tf : Option (Option Token)) : Option Token :=
  match tf with
  | some (some t) => some t
  | _ => none

/-- Result of `creds.refresh(Request())` when the refresh call succeeds:
a valid, non-expired token (the refresh token is retained). -/
def refreshToken (t : Token) : Token :=
  { t with valid := true, expired := false }

/-- Does control reach the `else` branch at google_auth.py:58 (the interactive
flow), given the loaded `creds`? True when no token was loaded, or the loaded
token is invalid and not expired-with-refresh-token. -/
def takesFlowBranch (tf : Option (Option Token)) : Bool :=
  match loadToken tf with
  | none => true
  | some t => !t.valid && !(t.expired && t.hasRefresh)

/-- The interactive-flow branch of `_get_credentials` (google_auth.py:59-72):
raise if the client-secrets file is missing, otherwise run the consent flow
and, on success, write the fresh token wholesale to the token file. -/
def flowStep (env : Env) (tf : Option (Option Token)) (evs : List Event) : CredsResult :=
  if !env.credFileExists then
    ⟨.error (.googleAuthError "Failed to authenticate with Google: Credentials file not found"),
     tf, evs⟩
  else
    match env.flowResult with
    | none =>
        ⟨.error (.googleAuthError "Failed to authenticate with Google: consent flow failed"),
         tf, evs ++ [.runFlow]⟩
    | some t =>
        ⟨.ok (.user t), some (some t), evs ++ [.runFlow, .tokenWrite t]⟩

/-- `GoogleServiceManager._get_credentials` (google_auth.py:29-78). Service
account first; else load the persisted token (parse failure caught); if the
loaded token is not valid, refresh it when expired-with-refresh-token
(a refresh failure propagates to the outer handler and is wrapped in
`GoogleAuthError` - it does not fall through to the flow), else run the
interactive flow; every successful refresh or flow writes the token file. -/
def getCredentials (env : Env) (scopes : List String) (tf : Option (Option Token)) : CredsResult :=
  if env.saPathConfigured && env.saFileExists then
    if env.saLoadOk then
      ⟨.ok (.serviceAccount scopes), tf, [.saLoad]⟩
    else
      ⟨.error (.googleAuthError "Failed to authenticate with Google: service account load failed"),
       tf, [.saLoad]⟩
  else
    let loadEvents : List Event :=
      match tf with
      | none => []
      | some none => [.tokenLoadFailed]
      | some (some _) => [.tokenLoaded]
    match loadToken tf with
    | some t =>
      if t.valid then
        ⟨.ok (.user t), tf, loadEvents⟩
      else if t.expired && t.hasRefresh then
        if env.refreshOk then
          let t' := refreshToken t
          ⟨.ok (.user t'), some (some t'), loadEvents ++ [.refresh, .tokenWrite t']⟩
        else
          ⟨.error (.googleAuthError "Failed to authenticate with Google: refresh failed"),
           tf, loadEvents ++ [.refresh]⟩
      else
        flowStep env tf loadEvents
    | none => flowStep env tf loadEvents

/-- Outcome of `get_service`: a result, the state after the call, and the
trace of storage/network events. -/
structure ServiceResult where
  result : Except AuthError Service
  state : AuthState
  events : List Event
deriving DecidableEq, Repr

/-- `GoogleServiceManager.get_service` (google_auth.py:80-110). Resolve
omitted scopes via `get_google_scopes`, compute the cache key, return a cache
hit immediately (no events); otherwise resolve credentials, build the service
(fresh id), cache it. Any failure is wrapped in `GoogleAuthError`; the cache
is only written after a successful build. -/
def getService (env : Env) (api ver : String) (scopes? : Option (List String)) (st : AuthState) : ServiceResult :=
  let scopes := scopes?.getD (get_google_scopes api)
  let key := serviceKey api ver scopes
  match cacheLookup st.cache key with
  | some s => ⟨.ok s, st, []⟩
  | none =>
    let cr := getCredentials env scopes st.tokenFile
    match cr.result with
    | .error _ =>
        ⟨.error (.googleAuthError ("Failed to create " ++ api ++ " service")),
         { st with tokenFile := cr.tokenFile }, cr.events⟩
    | .ok creds =>
        if env.buildOk then
          let s : Service := ⟨api, ver, creds, st.nextId⟩
          ⟨.ok s,
           { cache := (key, s) :: st.cache, tokenFile := cr.tokenFile, nextId := st.nextId + 1 },
           cr.events ++ [.build api]⟩
        else
          ⟨.error (.googleAuthError ("Failed to create " ++ api ++ " service")),
           { st with tokenFile := cr.tokenFile }, cr.events ++ [.build api]⟩

/-- `GoogleServiceManager.clear_cache` (google_auth.py:112-115):
`self._services.clear()`. Total; touches nothing but the cache. -/
def clearCache (st : AuthState) : AuthState :=
  { st with cache := [] }

/-- `validate_credentials` (google_auth.py:137-148): get the gmail v1 service
with default scopes, call `users().getProfile(userId='me')`, return True;
any exception anywhere yields False (never raised to the caller). -/
def validate_credentials (env : Env) (st : AuthState) : Bool × AuthState × List Event :=
  let r := getService env "gmail" "v1" none st
  match r.result with
  | .error _ => (false, r.state, r.events)
  | .ok _ =>
      if env.profileOk then (true, r.state, r.events ++ [.getProfile])
      else (false, r.state, r.events ++ [.getProfile])

/-- Empty starting state: empty cache, no token file, counter at 0. -/
def initState : AuthState :=
  ⟨[], none, 0⟩

/-! Concrete environments and states used in counterexamples and witnesses. -/

/-- Environment with a configured, existing, loadable service-account key;
no token file machinery needed; `build` succeeds. -/
def envSA : Env :=
  ⟨true, true, true, false, false, none, true, true⟩

/-- A persisted token that is invalid, expired, and carries a refresh token. -/
def tokExpRefresh : Token :=
  ⟨false, true, true⟩

/-- Environment with no service account, a failing refresh call, and a fully
available interactive flow (client-secrets file present, flow would succeed
with a fresh valid token); `build` succeeds. -/
def envRefreshFail : Env :=
  ⟨false, false, true, false, true, some ⟨true, false, true⟩, true, true⟩

/-- State whose token file holds the expired-but-refreshable token. -/
def stTok : AuthState :=
  ⟨[], some (some tokExpRefresh), 0⟩

/-- Environment with no credential source at all: no service account, no
client-secrets file, and no flow. -/
def envNothing : Env :=
  ⟨false, false, false, false, false, none, true, true⟩

/-- C1: the claim says `get_service` with an unknown `api_name` and omitted
scopes fails with a configuration error. Counterexample: with a service
account configured, `get_service("news", "v1")` succeeds and proceeds to
authentication (service-account load and `build` both happen) with the empty
scope list resolved by `get_google_scopes`. -/
theorem C1_counterexample :
    getService envSA "news" "v1" none initState =
      ⟨.ok ⟨"news", "v1", .serviceAccount [], 0⟩,
       ⟨[(⟨"news", "v1", []⟩, ⟨"news", "v1", .serviceAccount [], 0⟩)], none, 1⟩,
       [.saLoad, .build "news"]⟩ := rfl

/-- C1 amended: for an `api_name` outside the known mapping with scopes
omitted, `get_google_scopes` resolves to the empty list and `get_service`
behaves exactly as if the empty scope list had been passed explicitly: it
proceeds to authentication rather than failing with a configuration error. -/
theorem C1_amended (env : Env) (api ver : String) (st : AuthState)
    (h1 : api ≠ "gmail") (h2 : api ≠ "calendar") (h3 : api ≠ "drive") :
    get_google_scopes api = [] ∧
    getService env api ver none st = getService env api ver (some []) st := by
  have hs : get_google_scopes api = [] := by
    simp [get_google_scopes, h1, h2, h3]
  exact ⟨hs, by simp [getService, hs]⟩

/-- Witness for C1 amended at the concrete unknown API name "news". -/
theorem C1_amended_witness :
    get_google_scopes "news" = [] ∧
    getService envSA "news" "v1" none initState =
      getService envSA "news" "v1" (some []) initState :=
  C1_amended envSA "news" "v1" initState (by decide) (by decide) (by decide)

/-- C2: the claim says the cache key is order-independent in the scopes.
Counterexample: after `get_service("gmail","v1",["a","b"])`, the call
`get_service("gmail","v1",["b","a"])` - the same scope set in another order -
misses the cache: it returns a freshly built handle (id 1, not the cached
id 0) and performs authentication and network I/O again. -/
theorem C2_counterexample :
    getService envSA "gmail" "v1" (some ["b", "a"])
        (getService envSA "gmail" "v1" (some ["a", "b"]) initState).state =
      ⟨.ok ⟨"gmail", "v1", .serviceAccount ["b", "a"], 1⟩,
       ⟨[(⟨"gmail", "v1", ["b", "a"]⟩, ⟨"gmail", "v1", .serviceAccount ["b", "a"], 1⟩),
         (⟨"gmail", "v1", ["a", "b"]⟩, ⟨"gmail", "v1", .serviceAccount ["a", "b"], 0⟩)],
        none, 2⟩,
       [.saLoad, .build "gmail"]⟩ := rfl

/-- C2 amended: the service cache key is scope-sequence-sensitive, not
scope-set-sensitive: for a fixed api name and version, two scope lists
produce the same cache key iff they are equal as sequences, so set-equal but
differently ordered scope lists yield distinct keys and independent
resolution. -/
theorem C2_amended (api ver : String) (s1 s2 : List String) :
    serviceKey api ver s1 = serviceKey api ver s2 ↔ s1 = s2 := by
  simp [serviceKey]

/-- On the OAuth path with a loaded token that is invalid, expired, and
refreshable, a failing refresh call makes `_get_credentials` raise
`GoogleAuthError`; the trace shows the refresh attempt and nothing after. -/
theorem getCredentials_refresh_fail (env : Env) (scopes : List String) (t : Token)
    (hsa : (env.saPathConfigured && env.saFileExists) = false)
    (hv : t.valid = false) (he : t.expired = true) (hr : t.hasRefresh = true)
    (hrf : env.refreshOk = false) :
    getCredentials env scopes (some (some t)) =
      ⟨.error (.googleAuthError "Failed to authenticate with Google: refresh failed"),
       some (some t), [.tokenLoaded, .refresh]⟩ := by
  simp [getCredentials, hsa, loadToken, hv, he, hr, hrf]

/-- C3: the claim says a refresh failure falls through to the interactive
consent flow. Counterexample: with an expired refreshable token whose refresh
fails, and with the interactive flow fully available (client-secrets present,
flow would succeed), `get_service` raises `GoogleAuthError` and never runs
the flow. -/
theorem C3_counterexample :
    (getService envRefreshFail "gmail" "v1" none stTok).result =
      .error (.googleAuthError "Failed to create gmail service") ∧
    Event.runFlow ∉ (getService envRefreshFail "gmail" "v1" none stTok).events :=
  ⟨rfl, by decide⟩

/-- C3 amended: when the stored user-delegated token fails to refresh,
`get_service` surfaces the failure as a `GoogleAuthError` (it wraps the
exception) and does not fall through to the interactive consent flow. -/
theorem C3_amended (env : Env) (api ver : String) (st : AuthState) (t : Token)
    (hsa : (env.saPathConfigured && env.saFileExists) = false)
    (htf : st.tokenFile = some (some t))
    (hv : t.valid = false) (he : t.expired = true) (hr : t.hasRefresh = true)
    (hrf : env.refreshOk = false)
    (hmiss : cacheLookup st.cache (serviceKey api ver (get_google_scopes api)) = none) :
    (getService env api ver none st).result =
      .error (.googleAuthError ("Failed to create " ++ api ++ " service")) ∧
    Event.runFlow ∉ (getService env api ver none st).events := by
  have hcred := getCredentials_refresh_fail env (get_google_scopes api) t hsa hv he hr hrf
  unfold getService
  rw [htf] at *
  simp [hmiss, hcred]

/-- Witness for C3 amended at the concrete refresh-failure environment. -/
theorem C3_amended_witness :
    (getService envRefreshFail "gmail" "v1" none stTok).result =
      .error (.googleAuthError ("Failed to create " ++ "gmail" ++ " service")) ∧
    Event.runFlow ∉ (getService envRefreshFail "gmail" "v1" none stTok).events :=
  C3_amended envRefreshFail "gmail" "v1" stTok tokExpRefresh rfl rfl rfl rfl rfl rfl rfl

/-- Number of token-refresh calls in a trace. -/
def countRefresh : List Event → Nat
  | [] => 0
  | .refresh :: rest => countRefresh rest + 1
  | _ :: rest => countRefresh rest

/-- C4: credential resolution is ordered, first match wins. (1) With a
service-account key configured and present, credentials are minted from the
key file and the trace holds only the key-file load: no token load, refresh,
or interactive flow. (2) Otherwise a loaded valid token is used as is: no
refresh, no flow, no token write. (3) Otherwise a loaded expired token with a
refresh token is refreshed exactly once and the interactive-flow branch is
never reached. (4) Otherwise (no token at all, client secrets present) the
interactive flow runs. -/
theorem C4_resolution_order :
    (∀ env scopes tf, env.saPathConfigured = true → env.saFileExists = true →
      env.saLoadOk = true →
      getCredentials env scopes tf = ⟨.ok (.serviceAccount scopes), tf, [.saLoad]⟩) ∧
    (∀ env scopes t, (env.saPathConfigured && env.saFileExists) = false →
      t.valid = true →
      getCredentials env scopes (some (some t)) =
        ⟨.ok (.user t), some (some t), [.tokenLoaded]⟩) ∧
    (∀ env scopes t, (env.saPathConfigured && env.saFileExists) = false →
      t.valid = false → t.expired = true → t.hasRefresh = true →
      countRefresh (getCredentials env scopes (some (some t))).events = 1 ∧
      Event.runFlow ∉ (getCredentials env scopes (some (some t))).events) ∧
    (∀ env scopes, (env.saPathConfigured && env.saFileExists) = false →
      env.credFileExists = true →
      Event.runFlow ∈ (getCredentials env scopes none).events) := by
  refine ⟨?_, ?_, ?_, ?_⟩
  · intro env scopes tf h1 h2 h3
    simp [getCredentials, h1, h2, h3]
  · intro env scopes t hsa hv
    simp [getCredentials, hsa, loadToken, hv]
  · intro env scopes t hsa hv he hr
    cases hrf : env.refreshOk <;>
      simp [getCredentials, hsa, loadToken, hv, he, hr, hrf, countRefresh]
  · intro env scopes hsa hcf
    simp [getCredentials, hsa, loadToken, flowStep, hcf]
    cases hf : env.flowResult <;> simp

/-- Witness for C4 at concrete environments: service account present; a valid
persisted token; an expired refreshable token; and the bare-flow case. -/
theorem C4_resolution_order_witness :
    (getCredentials envSA ["s"] none = ⟨.ok (.serviceAccount ["s"]), none, [.saLoad]⟩) ∧
    (getCredentials envRefreshFail ["s"] (some (some ⟨true, false, false⟩)) =
      ⟨.ok (.user ⟨true, false, false⟩), some (some ⟨true, false, false⟩), [.tokenLoaded]⟩) ∧
    (countRefresh (getCredentials envRefreshFail ["s"] (some (some tokExpRefresh))).events = 1 ∧
     Event.runFlow ∉ (getCredentials envRefreshFail ["s"] (some (some tokExpRefresh))).events) ∧
    Event.runFlow ∈ (getCredentials envRefreshFail ["s"] none).events :=
  ⟨C4_resolution_order.1 envSA ["s"] none rfl rfl rfl,
   C4_resolution_order.2.1 envRefreshFail ["s"] ⟨true, false, false⟩ rfl rfl,
   C4_resolution_order.2.2.1 envRefreshFail ["s"] tokExpRefresh rfl rfl rfl rfl,
   C4_resolution_order.2.2.2 envRefreshFail ["s"] rfl rfl⟩

/-- After a successful `get_service` call, the returned handle is cached
under the key computed from the call's arguments. -/
theorem getService_ok_cached (env : Env) (api ver : String)
    (scopes? : Option (List String)) (st : AuthState) (s : Service)
    (h : (getService env api ver scopes? st).result = .ok s) :
    cacheLookup (getService env api ver scopes? st).state.cache
      (serviceKey api ver (scopes?.getD (get_google_scopes api))) = some s := by
  unfold getService at h ⊢
  rcases hl : cacheLookup st.cache (serviceKey api ver (scopes?.getD (get_google_scopes api))) with _ | s0
  · simp only [hl] at h ⊢
    rcases hc : (getCredentials env (scopes?.getD (get_google_scopes api)) st.tokenFile).result with e | creds
    · simp [hc] at h
    · simp only [hc] at h ⊢
      cases hb : env.buildOk
      · simp [hb] at h
      · simp only [hb, if_true] at h ⊢
        simp at h ⊢
        subst h
        simp [cacheLookup]
  · simp only [hl] at h ⊢
    simp at h ⊢
    exact h

/-- A cache hit returns the cached handle unchanged with an empty trace. -/
theorem getService_hit (env : Env) (api ver : String)
    (scopes? : Option (List String)) (st : AuthState) (s : Service)
    (h : cacheLookup st.cache (serviceKey api ver (scopes?.getD (get_google_scopes api))) = some s) :
    getService env api ver scopes? st = ⟨.ok s, st, []⟩ := by
  unfold getService
  simp [h]

/-- C5: after one successful `get_service` call, a second call with the
identical arguments is a pure cache hit: it returns the same handle, leaves
the state untouched, and performs no storage access and no network I/O at
all (its event trace is empty). -/
theorem C5_second_call_pure_hit (env : Env) (api ver : String)
    (scopes? : Option (List String)) (st : AuthState) (s : Service)
    (h : (getService env api ver scopes? st).result = .ok s) :
    getService env api ver scopes? (getService env api ver scopes? st).state =
      ⟨.ok s, (getService env api ver scopes? st).state, []⟩ :=
  getService_hit env api ver scopes? _ s (getService_ok_cached env api ver scopes? st s h)

/-- Witness for C5 at a concrete successful first call. -/
theorem C5_second_call_pure_hit_witness :
    getService envSA "gmail" "v1" (some ["a", "b"])
        (getService envSA "gmail" "v1" (some ["a", "b"]) initState).state =
      ⟨.ok ⟨"gmail", "v1", .serviceAccount ["a", "b"], 0⟩,
       (getService envSA "gmail" "v1" (some ["a", "b"]) initState).state, []⟩ :=
  C5_second_call_pure_hit envSA "gmail" "v1" (some ["a", "b"]) initState
    ⟨"gmail", "v1", .serviceAccount ["a", "b"], 0⟩ rfl

/-- C6: a failing `get_service` call raises the layer's typed error
(`GoogleAuthError`) and leaves the service cache exactly as it was: the cache
is only written after a successful build, so no entry is added or modified by
a failing call. -/
theorem C6_error_leaves_cache (env : Env) (api ver : String)
    (scopes? : Option (List String)) (st : AuthState) (e : AuthError)
    (h : (getService env api ver scopes? st).result = .error e) :
    (getService env api ver scopes? st).state.cache = st.cache ∧
    ∃ msg, e = .googleAuthError msg := by
  unfold getService at h ⊢
  rcases hl : cacheLookup st.cache (serviceKey api ver (scopes?.getD (get_google_scopes api))) with _ | s0
  · simp only [hl] at h ⊢
    rcases hc : (getCredentials env (scopes?.getD (get_google_scopes api)) st.tokenFile).result with e0 | creds
    · simp only [hc] at h ⊢
      simp at h ⊢
      exact ⟨"Failed to create " ++ api ++ " service", h.symm⟩
    · simp only [hc] at h ⊢
      cases hb : env.buildOk
      · simp only [hb] at h ⊢
        simp at h ⊢
        exact ⟨"Failed to create " ++ api ++ " service", h.symm⟩
      · simp [hb] at h
  · simp [hl] at h

/-- Witness for C6 at a concrete failing input: no credential source at all. -/
theorem C6_error_leaves_cache_witness :
    (getService envNothing "gmail" "v1" none initState).state.cache = initState.cache ∧
    ∃ msg, AuthError.googleAuthError "Failed to create gmail service" =
      .googleAuthError msg :=
  C6_error_leaves_cache envNothing "gmail" "v1" none initState
    (.googleAuthError "Failed to create gmail service") rfl

/-- C7: `clear_cache` unconditionally empties the service cache and touches
nothing else (it is total, so it never fails), and any `get_service` call
that succeeds after a `clear_cache` performs a fresh resolution: with the
cache empty it cannot reuse an old handle - the returned handle is freshly
built (its id is the state's allocation counter) and the trace shows the
`build` network call happening again. -/
theorem C7_clear_cache :
    (∀ st, (clearCache st).cache = [] ∧ (clearCache st).tokenFile = st.tokenFile ∧
      (clearCache st).nextId = st.nextId) ∧
    (∀ env api ver scopes? st s,
      (getService env api ver scopes? (clearCache st)).result = .ok s →
      s.id = st.nextId ∧
      Event.build api ∈ (getService env api ver scopes? (clearCache st)).events) := by
  constructor
  · intro st
    exact ⟨rfl, rfl, rfl⟩
  · intro env api ver scopes? st s h
    unfold getService at h ⊢
    simp only [clearCache] at h ⊢
    rcases hc : (getCredentials env (scopes?.getD (get_google_scopes api)) st.tokenFile).result with e | creds
    · simp [cacheLookup, hc] at h
    · simp only [cacheLookup, hc] at h ⊢
      cases hb : env.buildOk
      · simp [hb] at h
      · simp only [hb] at h ⊢
        simp at h ⊢
        rw [← h]

/-- Witness for C7 at a concrete state and environment. -/
theorem C7_clear_cache_witness :
    ((clearCache stTok).cache = [] ∧ (clearCache stTok).tokenFile = stTok.tokenFile ∧
      (clearCache stTok).nextId = stTok.nextId) ∧
    ((⟨"news", "v1", .serviceAccount [], 0⟩ : Service).id = initState.nextId ∧
      Event.build "news" ∈ (getService envSA "news" "v1" none (clearCache initState)).events) :=
  ⟨C7_clear_cache.1 stTok,
   C7_clear_cache.2 envSA "news" "v1" none initState ⟨"news", "v1", .serviceAccount [], 0⟩ rfl⟩

/-- C8: whenever the OAuth2 path obtains fresh credentials, the token file is
overwritten wholesale before the call returns. (1) A successful refresh of a
loaded expired-but-refreshable token leaves the token file holding exactly
the refreshed token (whatever it held before) and the trace records the
write. (2) A completed interactive flow (reached from any prior token-file
content on the flow branch) leaves the token file holding exactly the fresh
token and the trace records the write. -/
theorem C8_token_persist :
    (∀ env scopes t, (env.saPathConfigured && env.saFileExists) = false →
      t.valid = false → t.expired = true → t.hasRefresh = true →
      env.refreshOk = true →
      getCredentials env scopes (some (some t)) =
        ⟨.ok (.user (refreshToken t)), some (some (refreshToken t)),
         [.tokenLoaded, .refresh, .tokenWrite (refreshToken t)]⟩) ∧
    (∀ env scopes tf t, (env.saPathConfigured && env.saFileExists) = false →
      takesFlowBranch tf = true → env.credFileExists = true →
      env.flowResult = some t →
      (getCredentials env scopes tf).result = .ok (.user t) ∧
      (getCredentials env scopes tf).tokenFile = some (some t) ∧
      Event.tokenWrite t ∈ (getCredentials env scopes tf).events) := by
  constructor
  · intro env scopes t hsa hv he hr hok
    simp [getCredentials, hsa, loadToken, hv, he, hr, hok]
  · intro env scopes tf t hsa hfb hcf hfr
    rcases tf with _ | tf0
    · simp [getCredentials, hsa, loadToken, flowStep, hcf, hfr]
    · rcases tf0 with _ | t0
      · simp [getCredentials, hsa, loadToken, flowStep, hcf, hfr]
      · have h1 : (!t0.valid && !(t0.expired && t0.hasRefresh)) = true := by
          simpa [takesFlowBranch, loadToken] using hfb
        have hv0 : t0.valid = false := by
          cases hv : t0.valid
          · rfl
          · rw [hv] at h1
            simp at h1
        have he0 : (t0.expired && t0.hasRefresh) = false := by
          cases hh : t0.expired && t0.hasRefresh
          · rfl
          · rw [hh] at h1
            simp at h1
        simp [getCredentials, hsa, loadToken, hv0, he0, flowStep, hcf, hfr]

/-- Witness for C8: a successful refresh, and a completed flow reached from
an unparseable token file. -/
theorem C8_token_persist_witness :
    (getCredentials ⟨false, false, true, true, true, none, true, true⟩ ["s"]
        (some (some tokExpRefresh)) =
      ⟨.ok (.user (refreshToken tokExpRefresh)), some (some (refreshToken tokExpRefresh)),
       [.tokenLoaded, .refresh, .tokenWrite (refreshToken tokExpRefresh)]⟩) ∧
    ((getCredentials envRefreshFail ["s"] (some none)).result =
      .ok (.user ⟨true, false, true⟩) ∧
     (getCredentials envRefreshFail ["s"] (some none)).tokenFile =
      some (some ⟨true, false, true⟩) ∧
     Event.tokenWrite ⟨true, false, true⟩ ∈
      (getCredentials envRefreshFail ["s"] (some none)).events) :=
  ⟨C8_token_persist.1 ⟨false, false, true, true, true, none, true, true⟩ ["s"]
      tokExpRefresh rfl rfl rfl rfl rfl,
   C8_token_persist.2 envRefreshFail ["s"] (some none) ⟨true, false, true⟩ rfl rfl rfl rfl⟩

/-- C9: `validate_credentials` is total (it catches every exception, so it
never raises) and returns true exactly when the full resolution pipeline
(`get_service('gmail','v1')` with default scopes) succeeds and the subsequent
`getProfile` identity check succeeds; any failure injected at any stage makes
it return false. -/
theorem C9_validate (env : Env) (st : AuthState) :
    (validate_credentials env st).1 = true ↔
      ((∃ s, (getService env "gmail" "v1" none st).result = .ok s) ∧
       env.profileOk = true) := by
  unfold validate_credentials
  rcases hr : (getService env "gmail" "v1" none st).result with e | s
  · simp [hr]
  · cases hp : env.profileOk <;> simp [hr, hp]

/-- C10: a token file that exists but cannot be parsed is not an error at the
interface: `_get_credentials` behaves exactly as with no token file (same
result), the only trace difference being the logged failed load attempt, so
resolution proceeds to the refresh/interactive-flow logic with no loaded
credentials. -/
theorem C10_unparseable_token (env : Env) (scopes : List String)
    (hsa : (env.saPathConfigured && env.saFileExists) = false) :
    (getCredentials env scopes (some none)).result =
      (getCredentials env scopes none).result ∧
    (getCredentials env scopes (some none)).events =
      .tokenLoadFailed :: (getCredentials env scopes none).events := by
  cases hc : env.credFileExists
  · simp [getCredentials, hsa, loadToken, flowStep, hc]
  · cases hf : env.flowResult <;>
      simp [getCredentials, hsa, loadToken, flowStep, hc, hf]

/-- Witness for C10 at the concrete OAuth environment. -/
theorem C10_unparseable_token_witness :
    (getCredentials envRefreshFail ["s"] (some none)).result =
      (getCredentials envRefreshFail ["s"] none).result ∧
    (getCredentials envRefreshFail ["s"] (some none)).events =
      .tokenLoadFailed :: (getCredentials envRefreshFail ["s"] none).events :=
  C10_unparseable_token envRefreshFail ["s"] rfl
